import Mathlib

/-!
Verification of the residue-filtering pipeline in the PDBe Aggregated API
example notebook (`src/example.ipynb`, with a second copy in
`src/unnamed/part_000`).  The notebook fetches three JSON documents keyed by
a UniProt accession and runs three list-accumulation loops over them:

* Step 4 builds `all_predicted_ligand_binding_residues` from the annotations
  document, keeping records whose provider accession is in
  `["p2rank", "cansar"]`;
* Step 6 builds `interface_residues_with_hirudin` from the interactions
  document, keeping residues of records named `"Hirudin variant-1"` whose
  `startIndex` lies in the Step-4 list;
* Step 7 builds `ligand_list` from the ligand-sites document, appending a
  record's ligand accession at the first residue whose `startIndex` lies in
  the Step-6 list (then `break`).

The helper functions `get_data` and `parse_data` (Step 3) and the
dictionary lookups `doc[ACCESSION]["data"]` are embedded with explicit
Python-style error outcomes (`KeyError`, `ValueError`, `NameError`,
JSON-decode failure).
-/

namespace PdbeExample

/-- One residue entry as consumed by the notebook: only the `startIndex`
field is ever read, so the embedding keeps just that field. -/
structure Residue where
  startIndex : Int
  deriving DecidableEq, Repr

/-- One entry of `annotations_data[ACCESSION]["data"]`: a provider
accession string plus its residue list. -/
structure AnnotationRecord where
  accession : String
  residues : List Residue
  deriving DecidableEq, Repr

/-- One entry of `interactions_data[ACCESSION]["data"]`: an interaction
partner name plus its residue list. -/
structure InteractionRecord where
  name : String
  residues : List Residue
  deriving DecidableEq, Repr

/-- One entry of `ligands_data[ACCESSION]["data"]`: a ligand accession
string plus its residue list. -/
structure LigandRecord where
  accession : String
  residues : List Residue
  deriving DecidableEq, Repr

/-- The UniProt accession fixed in Step 2 of the notebook. -/
def ACCESSION : String := "P00734"

/-- The provider allowlist hard-coded in the Step 4 loop:
`if provider_data["accession"] in ["p2rank", "cansar"]`. -/
def providerAllowlist : List String := ["p2rank", "cansar"]

/-- Step 4 loop of `src/example.ipynb`:

```
all_predicted_ligand_binding_residues = list()
for provider_data in annotations_data[ACCESSION]["data"]:
    if provider_data["accession"] in ["p2rank", "cansar"]:
        residues = [x["startIndex"] for x in provider_data["residues"]]
        all_predicted_ligand_binding_residues.extend(residues)
```

The loop accumulates, record by record in encounter order, the
`startIndex` values of records whose provider accession is in the
allowlist; the recursion emits each record's contribution followed by the
rest, which is the same order the imperative `extend` produces. -/
def all_predicted_ligand_binding_residues :
    List AnnotationRecord → List String → List Int
  | [], _ => []
  | p :: rest, allow =>
      (if p.accession ∈ allow then p.residues.map Residue.startIndex else []) ++
        all_predicted_ligand_binding_residues rest allow

/-- Step 6 loop of `src/example.ipynb`:

```
interface_residues_with_hirudin = list()
for item in interactions_data[ACCESSION]["data"]:
    if item["name"] == "Hirudin variant-1":
        interacting_residues = [x["startIndex"] for x in item["residues"]
                                if x["startIndex"] in all_predicted_ligand_binding_residues]
        interface_residues_with_hirudin.extend(interacting_residues)
```

Parametrised over the queried partner name and the candidate list. -/
def interface_residues_with_hirudin :
    List InteractionRecord → String → List Int → List Int
  | [], _, _ => []
  | item :: rest, partner, cand =>
      (if item.name = partner then
        (item.residues.filter (fun x => decide (x.startIndex ∈ cand))).map
          Residue.startIndex
      else []) ++ interface_residues_with_hirudin rest partner cand

/-- Inner loop of Step 7 for one ligand record:

```
for residue in ligand["residues"]:
    if residue["startIndex"] in interface_residues_with_hirudin:
        ligand_list.append(ligand["accession"])
        break
```

The accession is appended at the first residue whose `startIndex` is in
the target list, and the `break` makes the record contribute at most one
entry. -/
def ligandAppendOnFirstHit (accName : String) (target : List Int) :
    List Residue → List String
  | [] => []
  | r :: rest =>
      if r.startIndex ∈ target then [accName]
      else ligandAppendOnFirstHit accName target rest

/-- Step 7 loop of `src/example.ipynb`:

```
ligand_list = list()
for ligand in ligands_data[ACCESSION]["data"]:
    for residue in ligand["residues"]:
        if residue["startIndex"] in interface_residues_with_hirudin:
            ligand_list.append(ligand["accession"])
            break
``` -/
def ligand_list : List LigandRecord → List Int → List String
  | [], _ => []
  | lig :: rest, target =>
      ligandAppendOnFirstHit lig.accession target lig.residues ++
        ligand_list rest target

/-- The Step 4 accumulation equals the concatenation, in encounter order,
of the `startIndex` lists of exactly the allowlisted records. -/
theorem all_predicted_eq (data : List AnnotationRecord) (allow : List String) :
    all_predicted_ligand_binding_residues data allow =
      ((data.filter (fun p => decide (p.accession ∈ allow))).map
        (fun p => p.residues.map Residue.startIndex)).flatten := by
  induction data with
  | nil => rfl
  | cons p rest ih =>
      by_cases h : p.accession ∈ allow <;>
        simp [all_predicted_ligand_binding_residues, h, ih]

/-- The Step 6 accumulation equals the concatenation, in encounter order,
of the candidate-filtered `startIndex` lists of exactly the records whose
name equals the queried partner name. -/
theorem interface_residues_eq (data : List InteractionRecord)
    (partner : String) (cand : List Int) :
    interface_residues_with_hirudin data partner cand =
      ((data.filter (fun it => decide (it.name = partner))).map
        (fun it =>
          (it.residues.filter (fun x => decide (x.startIndex ∈ cand))).map
            Residue.startIndex)).flatten := by
  induction data with
  | nil => rfl
  | cons item rest ih =>
      by_cases h : item.name = partner <;>
        simp [interface_residues_with_hirudin, h, ih]

/-- The break-at-first-hit inner loop of Step 7 contributes the record's
accession exactly once when some residue's `startIndex` is in the target
list, and nothing otherwise. -/
theorem ligandAppendOnFirstHit_eq (accName : String) (target : List Int)
    (rs : List Residue) :
    ligandAppendOnFirstHit accName target rs =
      if rs.any (fun r => decide (r.startIndex ∈ target)) then [accName]
      else [] := by
  induction rs with
  | nil => rfl
  | cons r rest ih =>
      by_cases h : r.startIndex ∈ target <;>
        simp [ligandAppendOnFirstHit, h, ih]

/-- The Step 7 accumulation equals the accession list, in encounter order,
of exactly the records having at least one residue in the target list. -/
theorem ligand_list_eq (data : List LigandRecord) (target : List Int) :
    ligand_list data target =
      (data.filter
        (fun lig => lig.residues.any (fun r => decide (r.startIndex ∈ target)))).map
        LigandRecord.accession := by
  induction data with
  | nil => rfl
  | cons lig rest ih =>
      by_cases h : lig.residues.any (fun r => decide (r.startIndex ∈ target)) <;>
        simp [ligand_list, ligandAppendOnFirstHit_eq, h, ih]

/-- Python-level error outcomes the notebook can produce: dictionary
`KeyError`, the `ValueError` raised by `parse_data`, a JSON decode failure
raised by `data.json()`, and the `NameError` raised when an unbound name is
evaluated. -/
inductive PyError where
  | keyError (key : String)
  | valueError (msg : String)
  | jsonDecodeError (msg : String)
  | nameError (unboundName : String)
  deriving DecidableEq, Repr

/-- The `requests` response object, as consumed by `parse_data`: its
`status_code` and what its `.json()` method would yield — either the
decoded document or a decode-failure message. -/
structure Response (α : Type) where
  status_code : Int
  jsonBody : Except String α
  deriving Repr

/-- What `data.json()` yields as a pipeline outcome: the decoded document,
or a JSON decode failure. -/
def liftJsonBody {α : Type} : Except String α → Except PyError α
  | .ok j => .ok j
  | .error m => .error (.jsonDecodeError m)

/-- Step 3 helper `parse_data` of the notebook:

```
def parse_data(data):
    if data.status_code == 200:
        return data.json()
    else:
        raise ValueError('No data received')
```

The non-200 branch never touches the response body. -/
def parse_data {α : Type} (data : Response α) : Except PyError α :=
  if data.status_code = 200 then liftJsonBody data.jsonBody
  else .error (.valueError "No data received")

/-- Global names bound in the notebook's module scope by the time
`get_data` can run: the Step 1 import, the Step 2 assignments and the two
Step 3 function definitions.  The name `Error` is not among them. -/
def notebookGlobalNames : List String :=
  ["requests", "ACCESSION", "ANNOTATIONS_URL", "INTERACTIONS_URL",
   "LIGANDS_URL", "get_data", "parse_data"]

/-- Python builtin exception names (the builtins scope is consulted after
module scope when an exception-clause name is resolved).  Python has no
bare builtin named `Error`. -/
def pythonBuiltinExceptionNames : List String :=
  ["BaseException", "Exception", "ArithmeticError", "AssertionError",
   "AttributeError", "BlockingIOError", "BrokenPipeError", "BufferError",
   "ChildProcessError", "ConnectionAbortedError", "ConnectionError",
   "ConnectionRefusedError", "ConnectionResetError", "EOFError",
   "FileExistsError", "FileNotFoundError", "FloatingPointError",
   "GeneratorExit", "ImportError", "IndentationError", "IndexError",
   "InterruptedError", "IsADirectoryError", "KeyError",
   "KeyboardInterrupt", "LookupError", "MemoryError",
   "ModuleNotFoundError", "NameError", "NotADirectoryError",
   "NotImplementedError", "OSError", "OverflowError",
   "PermissionError", "ProcessLookupError", "RecursionError",
   "ReferenceError", "RuntimeError", "StopAsyncIteration",
   "StopIteration", "SystemError", "SystemExit", "TabError",
   "TimeoutError", "TypeError", "UnboundLocalError", "UnicodeError",
   "ValueError", "ZeroDivisionError"]

/-- Step 3 helper `get_data` of the notebook:

```
def get_data(accession, url):
    try:
        return requests.get(url)
    except Error as err:
        print("There was an error while retrieving the data: %s" % err)
```

The argument models the outcome of `requests.get(url)`: a response, or a
transport-level exception message.  Python evaluates the clause name
`Error` only when an exception actually occurs; it resolves the name
against the module globals and then the builtins, and raises `NameError`
when it is bound in neither.  Were `Error` bound to a matching exception
class, the handler would print and fall off the end of the function,
returning `None`. -/
def get_data {α : Type} (fetchResult : Except String (Response α)) :
    Except PyError (Option (Response α)) :=
  match fetchResult with
  | .ok r => .ok (some r)
  | .error _ =>
      if "Error" ∈ notebookGlobalNames ++ pythonBuiltinExceptionNames then
        .ok none
      else .error (.nameError "Error")

/-- A decoded Python dict, embedded as an association list in insertion
order (Python dict keys are unique, so first-match lookup agrees with dict
lookup). -/
def pyLookup {β : Type} (d : List (String × β)) (k : String) :
    Except PyError β :=
  match d.find? (fun kv => kv.1 == k) with
  | some kv => .ok kv.2
  | none => .error (.keyError k)

/-- Shape of a decoded endpoint document: the top level maps the accession
string to an inner object, which maps `"data"` to the record list. -/
abbrev ApiDoc (ρ : Type) : Type := List (String × List (String × List ρ))

/-- The notebook's computation from the three decoded documents to its
three outputs, in cell order: the `doc[ACCESSION]["data"]` lookups of
Steps 4, 6 and 7 followed by the three accumulation loops.  A failed
lookup aborts the run with that error, as an uncaught Python exception
would. -/
def run_notebook (ann : ApiDoc AnnotationRecord)
    (intr : ApiDoc InteractionRecord) (lig : ApiDoc LigandRecord) :
    Except PyError (List Int × List Int × List String) :=
  match pyLookup ann ACCESSION with
  | .error e => .error e
  | .ok annInner =>
    match pyLookup annInner "data" with
    | .error e => .error e
    | .ok annData =>
      let predicted := all_predicted_ligand_binding_residues annData providerAllowlist
      match pyLookup intr ACCESSION with
      | .error e => .error e
      | .ok intInner =>
        match pyLookup intInner "data" with
        | .error e => .error e
        | .ok intData =>
          let hirudinShared :=
            interface_residues_with_hirudin intData "Hirudin variant-1" predicted
          match pyLookup lig ACCESSION with
          | .error e => .error e
          | .ok ligInner =>
            match pyLookup ligInner "data" with
            | .error e => .error e
            | .ok ligData =>
              .ok (predicted, hirudinShared, ligand_list ligData hirudinShared)

/-- The interpreter state visible to the Step 6 and Step 7 cells: the two
fetched documents those cells read, together with the variables the cells
reference.  `src/example.ipynb` reads `ACCESSION` and
`all_predicted_ligand_binding_residues`, which earlier cells always bind,
so they are plain fields; `src/unnamed/part_000` reads the lowercase
`accession` and `all_ligand_binding_residues`, which no earlier cell of
either copy binds, so they are `Option`-valued (`none` = unbound name). -/
structure NotebookState where
  interactions_data : ApiDoc InteractionRecord
  ligands_data : ApiDoc LigandRecord
  ACCESSION : String
  accession : Option String
  all_predicted_ligand_binding_residues : List Int
  all_ligand_binding_residues : Option (List Int)
  interface_residues_with_hirudin : List Int

/-- Evaluating a Python name: its value when bound, `NameError` when not. -/
def resolveName {β : Type} (n : String) (v : Option β) : Except PyError β :=
  match v with
  | some x => .ok x
  | none => .error (.nameError n)

/-- The list comprehension of part_000's Step 6 cell for one matching
record, `[x["startIndex"] for x in item["residues"] if x["startIndex"] in
all_ligand_binding_residues]`: the name `all_ligand_binding_residues` is
resolved each time the condition is evaluated, so an unbound name raises
`NameError` at the first residue and an empty residue list raises
nothing. -/
def hirudinCompPart000 (albr : Option (List Int)) :
    List Residue → Except PyError (List Int)
  | [] => .ok []
  | r :: rest =>
      match albr with
      | none => .error (.nameError "all_ligand_binding_residues")
      | some cand =>
          match hirudinCompPart000 albr rest with
          | .error e => .error e
          | .ok tail =>
              .ok (if r.startIndex ∈ cand then r.startIndex :: tail else tail)

/-- The record loop of part_000's Step 6 cell, accumulating the
comprehension results of records named `"Hirudin variant-1"`. -/
def interfaceLoopPart000 (albr : Option (List Int)) :
    List InteractionRecord → Except PyError (List Int)
  | [] => .ok []
  | item :: rest =>
      match
        (if item.name = "Hirudin variant-1" then
          hirudinCompPart000 albr item.residues
        else .ok []) with
      | .error e => .error e
      | .ok head =>
          match interfaceLoopPart000 albr rest with
          | .error e => .error e
          | .ok tail => .ok (head ++ tail)

/-- Step 6 cell of `src/example.ipynb`, run on an interpreter state: look
up `interactions_data[ACCESSION]["data"]` and run the filter loop with the
bound `all_predicted_ligand_binding_residues`. -/
def step6ExampleCell (st : NotebookState) : Except PyError (List Int) :=
  match pyLookup st.interactions_data st.ACCESSION with
  | .error e => .error e
  | .ok inner =>
    match pyLookup inner "data" with
    | .error e => .error e
    | .ok data =>
        .ok (interface_residues_with_hirudin data "Hirudin variant-1"
          st.all_predicted_ligand_binding_residues)

/-- Step 6 cell of `src/unnamed/part_000`: it subscripts
`interactions_data[accession]` (lowercase) and tests membership in
`all_ligand_binding_residues`, so both names must resolve. -/
def step6Part000Cell (st : NotebookState) : Except PyError (List Int) :=
  match resolveName "accession" st.accession with
  | .error e => .error e
  | .ok acc =>
    match pyLookup st.interactions_data acc with
    | .error e => .error e
    | .ok inner =>
      match pyLookup inner "data" with
      | .error e => .error e
      | .ok data => interfaceLoopPart000 st.all_ligand_binding_residues data

/-- Step 7 cell of `src/example.ipynb`, run on an interpreter state: look
up `ligands_data[ACCESSION]["data"]` and run the break-on-first-hit loop
against the bound `interface_residues_with_hirudin`. -/
def step7ExampleCell (st : NotebookState) : Except PyError (List String) :=
  match pyLookup st.ligands_data st.ACCESSION with
  | .error e => .error e
  | .ok inner =>
    match pyLookup inner "data" with
    | .error e => .error e
    | .ok data => .ok (ligand_list data st.interface_residues_with_hirudin)

/-- Step 7 cell of `src/unnamed/part_000`: identical loop body, but it
subscripts `ligands_data[accession]` (lowercase), so that name must
resolve first. -/
def step7Part000Cell (st : NotebookState) : Except PyError (List String) :=
  match resolveName "accession" st.accession with
  | .error e => .error e
  | .ok acc =>
    match pyLookup st.ligands_data acc with
    | .error e => .error e
    | .ok inner =>
      match pyLookup inner "data" with
      | .error e => .error e
      | .ok data => .ok (ligand_list data st.interface_residues_with_hirudin)

/-- With `all_ligand_binding_residues` bound, part_000's comprehension
never raises and computes the same filtered index list as the
comprehension of `src/example.ipynb`. -/
theorem hirudinCompPart000_some (cand : List Int) (rs : List Residue) :
    hirudinCompPart000 (some cand) rs =
      .ok ((rs.filter (fun x => decide (x.startIndex ∈ cand))).map
        Residue.startIndex) := by
  induction rs with
  | nil => rfl
  | cons r rest ih =>
      by_cases h : r.startIndex ∈ cand <;>
        simp [hirudinCompPart000, ih, h]

/-- With `all_ligand_binding_residues` bound, part_000's Step 6 record
loop never raises and computes the same list as the Step 6 loop of
`src/example.ipynb` run with the bound candidate list. -/
theorem interfaceLoopPart000_some (cand : List Int)
    (data : List InteractionRecord) :
    interfaceLoopPart000 (some cand) data =
      .ok (interface_residues_with_hirudin data "Hirudin variant-1" cand) := by
  induction data with
  | nil => rfl
  | cons item rest ih =>
      by_cases h : item.name = "Hirudin variant-1" <;>
        simp [interfaceLoopPart000, interface_residues_with_hirudin,
          hirudinCompPart000_some, ih, h]

/-- C1: for every list of ligand records and every target list, the Step 7
loop appends a record's ligand accession exactly once per record having at
least one residue whose `startIndex` is in the target (the output is the
accession list of exactly the qualifying records, in encounter order), a
record with no residue in the target contributes nothing, the output
length equals the number of qualifying records, and in particular a run
with 279 qualifying records yields a 279-element output. -/
theorem claim_C1 (records : List LigandRecord) (target : List Int) :
    ligand_list records target =
      (records.filter
        (fun lig => lig.residues.any (fun r => decide (r.startIndex ∈ target)))).map
        LigandRecord.accession
    ∧ (ligand_list records target).length =
        records.countP
          (fun lig => lig.residues.any (fun r => decide (r.startIndex ∈ target)))
    ∧ (records.countP
          (fun lig => lig.residues.any (fun r => decide (r.startIndex ∈ target))) = 279 →
        (ligand_list records target).length = 279) := by
  have h1 := ligand_list_eq records target
  have h2 : (ligand_list records target).length =
      records.countP
        (fun lig => lig.residues.any (fun r => decide (r.startIndex ∈ target))) := by
    rw [h1, List.length_map, ← List.countP_eq_length_filter]
  exact ⟨h1, h2, fun h => h2.trans h⟩

set_option maxRecDepth 8000 in
/-- Witness for C1: 279 records, each with a residue at index 388 and
target list `[388]`, give 279 qualifying records and a 279-element
output. -/
theorem claim_C1_witness :
    ((List.replicate 279 (⟨"TYS", [⟨388⟩]⟩ : LigandRecord)).countP
        (fun lig => lig.residues.any
          (fun r => decide (r.startIndex ∈ ([388] : List Int)))) = 279)
    ∧ (ligand_list (List.replicate 279 (⟨"TYS", [⟨388⟩]⟩ : LigandRecord))
        [388]).length = 279 := by
  have h : (List.replicate 279 (⟨"TYS", [⟨388⟩]⟩ : LigandRecord)).countP
      (fun lig => lig.residues.any
        (fun r => decide (r.startIndex ∈ ([388] : List Int)))) = 279 := by decide
  exact ⟨h, (claim_C1 (List.replicate 279 ⟨"TYS", [⟨388⟩]⟩) [388]).2.2 h⟩

/-- C2: for every list of annotation records and every provider allowlist,
the Step 4 loop returns exactly the concatenation, in encounter order and
retaining duplicates, of the `startIndex` values of the residues of the
records whose provider accession is in the allowlist; records outside the
allowlist contribute nothing, and when no record's provider is in the
allowlist the result is the empty list (no error). -/
theorem claim_C2 (records : List AnnotationRecord) (allow : List String) :
    all_predicted_ligand_binding_residues records allow =
      ((records.filter (fun p => decide (p.accession ∈ allow))).map
        (fun p => p.residues.map Residue.startIndex)).flatten
    ∧ ((∀ p ∈ records, p.accession ∉ allow) →
        all_predicted_ligand_binding_residues records allow = []) := by
  refine ⟨all_predicted_eq records allow, fun h => ?_⟩
  rw [all_predicted_eq]
  have hfil : records.filter (fun p => decide (p.accession ∈ allow)) = [] := by
    rw [List.filter_eq_nil_iff]
    intro p hp
    simpa using h p hp
  simp [hfil]

/-- Witness for C2: a single record from a provider outside the notebook's
allowlist contributes nothing, with no error. -/
theorem claim_C2_witness :
    (∀ p ∈ [(⟨"uniprot", [⟨136⟩]⟩ : AnnotationRecord)],
      p.accession ∉ providerAllowlist)
    ∧ all_predicted_ligand_binding_residues
        [(⟨"uniprot", [⟨136⟩]⟩ : AnnotationRecord)] providerAllowlist = [] := by
  have h : ∀ p ∈ [(⟨"uniprot", [⟨136⟩]⟩ : AnnotationRecord)],
      p.accession ∉ providerAllowlist := by decide
  exact ⟨h, (claim_C2 [⟨"uniprot", [⟨136⟩]⟩] providerAllowlist).2 h⟩

/-- C3: for every list of interaction records, queried partner name and
candidate list, every element of the Step 6 output is a member of the
candidate list, the output is exactly the concatenation of the filtered
residue indices of the records whose name is exactly equal to the queried
name (so elements originate only from such records, in source order), and
when no record's name equals the queried name the output is the empty
list (not an error), whatever the candidate list is. -/
theorem claim_C3 (records : List InteractionRecord) (partner : String)
    (cand : List Int) :
    (∀ y ∈ interface_residues_with_hirudin records partner cand, y ∈ cand)
    ∧ interface_residues_with_hirudin records partner cand =
        ((records.filter (fun it => decide (it.name = partner))).map
          (fun it =>
            (it.residues.filter (fun x => decide (x.startIndex ∈ cand))).map
              Residue.startIndex)).flatten
    ∧ ((∀ it ∈ records, it.name ≠ partner) →
        interface_residues_with_hirudin records partner cand = []) := by
  refine ⟨?_, interface_residues_eq records partner cand, fun h => ?_⟩
  · induction records with
    | nil => intro y hy; cases hy
    | cons item rest ih =>
        intro y hy
        rw [interface_residues_with_hirudin] at hy
        rcases List.mem_append.mp hy with h1 | h2
        · by_cases hname : item.name = partner
          · rw [if_pos hname] at h1
            obtain ⟨x, hx, hyx⟩ := List.mem_map.mp h1
            obtain ⟨_, hxc⟩ := List.mem_filter.mp hx
            simpa [hyx] using of_decide_eq_true hxc
          · rw [if_neg hname] at h1
            cases h1
        · exact ih y h2
  · rw [interface_residues_eq]
    have hfil : records.filter (fun it => decide (it.name = partner)) = [] := by
      rw [List.filter_eq_nil_iff]
      intro it hit
      simpa using h it hit
    simp [hfil]

/-- Witness for C3: a nonempty candidate list and a record list in which
no name equals the queried partner name give the empty output. -/
theorem claim_C3_witness :
    (∀ it ∈ [(⟨"Prothrombin", [⟨388⟩]⟩ : InteractionRecord)],
      it.name ≠ "Hirudin variant-1")
    ∧ interface_residues_with_hirudin
        [(⟨"Prothrombin", [⟨388⟩]⟩ : InteractionRecord)]
        "Hirudin variant-1" [388, 406] = [] := by
  have h : ∀ it ∈ [(⟨"Prothrombin", [⟨388⟩]⟩ : InteractionRecord)],
      it.name ≠ "Hirudin variant-1" := by decide
  exact ⟨h,
    (claim_C3 [⟨"Prothrombin", [⟨388⟩]⟩] "Hirudin variant-1" [388, 406]).2.2 h⟩

/-- C4: for every response, `parse_data` yields the JSON-decoded body
exactly when the status code equals 200, raises `ValueError` with message
"No data received" exactly when the status code is not 200, and in the
non-200 case its result does not depend on the body at all (the body is
never parsed). -/
theorem claim_C4 {α : Type} (r : Response α) :
    (parse_data r = liftJsonBody r.jsonBody ↔ r.status_code = 200)
    ∧ (parse_data r = .error (.valueError "No data received") ↔
        r.status_code ≠ 200)
    ∧ (∀ b b' : Except String α, r.status_code ≠ 200 →
        parse_data ⟨r.status_code, b⟩ = parse_data ⟨r.status_code, b'⟩) := by
  by_cases h : r.status_code = 200
  · refine ⟨⟨fun _ => h, fun _ => by simp [parse_data, h]⟩, ?_, ?_⟩
    · constructor
      · intro hpd
        rw [parse_data, if_pos h] at hpd
        cases hb : r.jsonBody <;> rw [hb] at hpd <;>
          simp [liftJsonBody] at hpd
      · intro hne; exact absurd h hne
    · intro b b' hne; exact absurd h hne
  · refine ⟨⟨fun hpd => ?_, fun h200 => absurd h200 h⟩,
      ⟨fun _ => h, fun _ => by simp [parse_data, h]⟩,
      fun b b' _ => by simp [parse_data, h]⟩
    rw [parse_data, if_neg h] at hpd
    cases hb : r.jsonBody <;> rw [hb] at hpd <;> simp [liftJsonBody] at hpd

/-- Witness for C4: a 404 response raises "No data received" and its
result is the same whatever the body holds. -/
theorem claim_C4_witness :
    ((404 : Int) ≠ 200)
    ∧ parse_data (⟨404, Except.ok 7⟩ : Response Nat) =
        parse_data (⟨404, Except.error "invalid body"⟩ : Response Nat) := by
  have h : (404 : Int) ≠ 200 := by decide
  exact ⟨h, (claim_C4 (⟨404, Except.ok 7⟩ : Response Nat)).2.2
    (Except.ok 7) (Except.error "invalid body") h⟩

/-- C5 evidence: on a transport-level failure, `get_data` does not catch
the exception and return `None` — the clause name `Error` is bound
neither in the notebook's module scope nor among Python's builtins, so
evaluating the `except` clause raises `NameError` instead.  On a
successful fetch it returns the response unchanged. -/
theorem claim_C5_code_divergence :
    (∀ msg : String,
      get_data (Except.error msg : Except String (Response Nat)) =
        Except.error (PyError.nameError "Error"))
    ∧ (∀ r : Response Nat, get_data (Except.ok r) = Except.ok (some r)) := by
  have hmem : "Error" ∉ notebookGlobalNames ++ pythonBuiltinExceptionNames := by
    decide
  exact ⟨fun msg => by simp [get_data, hmem], fun r => rfl⟩

/-- C6: when the queried accession key is absent from any of the three
fetched documents, or the nested `"data"` key is absent from any of them,
the corresponding lookup in the pipeline fails with a `KeyError` naming
the missing key (at the first failing lookup in cell order), the error
propagates to the caller as the run's result (no stage catches it), and
the run never produces an `ok` value in that case (no stage substitutes an
empty default).  The six conjuncts cover the six lookup positions:
accession key and nested `"data"` key of the annotations, interactions and
ligand-sites documents. -/
theorem claim_C6 (ann : ApiDoc AnnotationRecord)
    (intr : ApiDoc InteractionRecord) (lig : ApiDoc LigandRecord) :
    (ann.find? (fun kv => kv.1 == ACCESSION) = none →
      run_notebook ann intr lig = .error (.keyError ACCESSION))
    ∧ (∀ annInner, pyLookup ann ACCESSION = .ok annInner →
        annInner.find? (fun kv => kv.1 == "data") = none →
        run_notebook ann intr lig = .error (.keyError "data"))
    ∧ (∀ annInner annData,
        pyLookup ann ACCESSION = .ok annInner →
        pyLookup annInner "data" = .ok annData →
        intr.find? (fun kv => kv.1 == ACCESSION) = none →
        run_notebook ann intr lig = .error (.keyError ACCESSION))
    ∧ (∀ annInner annData intInner,
        pyLookup ann ACCESSION = .ok annInner →
        pyLookup annInner "data" = .ok annData →
        pyLookup intr ACCESSION = .ok intInner →
        intInner.find? (fun kv => kv.1 == "data") = none →
        run_notebook ann intr lig = .error (.keyError "data"))
    ∧ (∀ annInner annData intInner intData,
        pyLookup ann ACCESSION = .ok annInner →
        pyLookup annInner "data" = .ok annData →
        pyLookup intr ACCESSION = .ok intInner →
        pyLookup intInner "data" = .ok intData →
        lig.find? (fun kv => kv.1 == ACCESSION) = none →
        run_notebook ann intr lig = .error (.keyError ACCESSION))
    ∧ (∀ annInner annData intInner intData ligInner,
        pyLookup ann ACCESSION = .ok annInner →
        pyLookup annInner "data" = .ok annData →
        pyLookup intr ACCESSION = .ok intInner →
        pyLookup intInner "data" = .ok intData →
        pyLookup lig ACCESSION = .ok ligInner →
        ligInner.find? (fun kv => kv.1 == "data") = none →
        run_notebook ann intr lig = .error (.keyError "data"))
    ∧ (∀ e out, run_notebook ann intr lig = .error e →
        run_notebook ann intr lig ≠ .ok out) := by
  refine ⟨fun h => ?_, fun annInner h1 h2 => ?_,
    fun annInner annData h1 h2 h3 => ?_,
    fun annInner annData intInner h1 h2 h3 h4 => ?_,
    fun annInner annData intInner intData h1 h2 h3 h4 h5 => ?_,
    fun annInner annData intInner intData ligInner h1 h2 h3 h4 h5 h6 => ?_,
    fun e out he => ?_⟩
  · have hl : pyLookup ann ACCESSION = .error (.keyError ACCESSION) := by
      rw [pyLookup, h]
    simp [run_notebook, hl]
  · have hl : pyLookup annInner "data" = .error (.keyError "data") := by
      rw [pyLookup, h2]
    simp [run_notebook, h1, hl]
  · have hl : pyLookup intr ACCESSION = .error (.keyError ACCESSION) := by
      rw [pyLookup, h3]
    simp [run_notebook, h1, h2, hl]
  · have hl : pyLookup intInner "data" = .error (.keyError "data") := by
      rw [pyLookup, h4]
    simp [run_notebook, h1, h2, h3, hl]
  · have hl : pyLookup lig ACCESSION = .error (.keyError ACCESSION) := by
      rw [pyLookup, h5]
    simp [run_notebook, h1, h2, h3, h4, hl]
  · have hl : pyLookup ligInner "data" = .error (.keyError "data") := by
      rw [pyLookup, h6]
    simp [run_notebook, h1, h2, h3, h4, h5, hl]
  · rw [he]
    intro hcontra
    exact Except.noConfusion hcontra

/-- Witness for C6, exercising all six lookup positions: a missing
accession key in the annotations, interactions or ligand-sites document
fails the run with `KeyError "P00734"`, and a missing nested `"data"` key
in any of the three fails it with `KeyError "data"`, each time at the
first failing lookup in cell order. -/
theorem claim_C6_witness :
    run_notebook ([] : ApiDoc AnnotationRecord) [] [] =
      .error (.keyError ACCESSION)
    ∧ run_notebook ([("P00734", [])] : ApiDoc AnnotationRecord) [] [] =
        .error (.keyError "data")
    ∧ run_notebook ([("P00734", [("data", [])])] : ApiDoc AnnotationRecord)
        ([] : ApiDoc InteractionRecord) ([] : ApiDoc LigandRecord) =
        .error (.keyError ACCESSION)
    ∧ run_notebook ([("P00734", [("data", [])])] : ApiDoc AnnotationRecord)
        ([("P00734", [])] : ApiDoc InteractionRecord)
        ([] : ApiDoc LigandRecord) = .error (.keyError "data")
    ∧ run_notebook ([("P00734", [("data", [])])] : ApiDoc AnnotationRecord)
        ([("P00734", [("data", [])])] : ApiDoc InteractionRecord)
        ([] : ApiDoc LigandRecord) = .error (.keyError ACCESSION)
    ∧ run_notebook ([("P00734", [("data", [])])] : ApiDoc AnnotationRecord)
        ([("P00734", [("data", [])])] : ApiDoc InteractionRecord)
        ([("P00734", [])] : ApiDoc LigandRecord) = .error (.keyError "data") :=
  ⟨(claim_C6 [] [] []).1 rfl,
   (claim_C6 [("P00734", [])] [] []).2.1 [] rfl rfl,
   (claim_C6 [("P00734", [("data", [])])] [] []).2.2.1
     [("data", [])] [] rfl rfl rfl,
   (claim_C6 [("P00734", [("data", [])])] [("P00734", [])] []).2.2.2.1
     [("data", [])] [] [] rfl rfl rfl rfl,
   (claim_C6 [("P00734", [("data", [])])] [("P00734", [("data", [])])]
       []).2.2.2.2.1
     [("data", [])] [] [("data", [])] [] rfl rfl rfl rfl rfl,
   (claim_C6 [("P00734", [("data", [])])] [("P00734", [("data", [])])]
       [("P00734", [])]).2.2.2.2.2.1
     [("data", [])] [] [("data", [])] [] [] rfl rfl rfl rfl rfl rfl⟩

/-- The 56 predicted ligand-binding residue indices printed by the Step 4
cell of `src/example.ipynb` for Thrombin. -/
def examplePredictedResidues : List Int :=
  [136, 237, 246, 251, 265, 273, 324, 329, 330, 331, 332, 333, 334, 336,
   372, 383, 386, 388, 389, 390, 391, 396, 400, 406, 407, 410, 413, 414,
   415, 417, 434, 436, 459, 493, 506, 507, 510, 511, 530, 541, 549, 565,
   566, 568, 572, 574, 585, 589, 590, 591, 596, 597, 605, 613, 615, 617]

/-- The nine residue indices printed by the Step 6 cell of
`src/example.ipynb`. -/
def nineSharedResidues : List Int :=
  [388, 406, 434, 541, 565, 566, 568, 589, 591]

/-- The worked example's "Hirudin variant-1" interaction record: its
residues include the nine shared indices among others (327, 620 are not
predicted binding residues). -/
def exampleHirudinRecord : InteractionRecord :=
  ⟨"Hirudin variant-1",
   [⟨327⟩, ⟨388⟩, ⟨406⟩, ⟨434⟩, ⟨541⟩, ⟨565⟩, ⟨566⟩, ⟨568⟩, ⟨589⟩,
    ⟨591⟩, ⟨620⟩]⟩

/-- Worked-example interaction data: the Hirudin variant-1 record among
records for other partners. -/
def exampleInteractionData : List InteractionRecord :=
  [⟨"Prothrombin", [⟨388⟩, ⟨500⟩]⟩, exampleHirudinRecord,
   ⟨"Hirudin-2", [⟨406⟩]⟩]

/-- C7: in the worked example — candidate set containing
{388, 406, 434, 541, 565, 566, 568, 589, 591} among others, and an
interaction record named "Hirudin variant-1" whose residues include those
nine among others — the Step 6 extraction returns exactly
`[388, 406, 434, 541, 565, 566, 568, 589, 591]`, in encounter order. -/
theorem claim_C7 :
    (∀ x ∈ nineSharedResidues, x ∈ examplePredictedResidues)
    ∧ exampleHirudinRecord.name = "Hirudin variant-1"
    ∧ (∀ x ∈ nineSharedResidues,
        x ∈ exampleHirudinRecord.residues.map Residue.startIndex)
    ∧ interface_residues_with_hirudin exampleInteractionData
        "Hirudin variant-1" examplePredictedResidues = nineSharedResidues := by
  refine ⟨by decide, rfl, by decide, by decide⟩

/-- C8: the pipeline from decoded documents to the three stage outputs is
deterministic — two runs on pairwise identical input documents return
identical results (the embedding has no other inputs: no randomness and no
ordering non-determinism). -/
theorem claim_C8 (ann ann' : ApiDoc AnnotationRecord)
    (intr intr' : ApiDoc InteractionRecord) (lig lig' : ApiDoc LigandRecord)
    (h1 : ann = ann') (h2 : intr = intr') (h3 : lig = lig') :
    run_notebook ann intr lig = run_notebook ann' intr' lig' := by
  rw [h1, h2, h3]

/-- Witness for C8: two runs on an identical concrete document triple
agree. -/
theorem claim_C8_witness :
    run_notebook
        [("P00734", [("data", [(⟨"cansar", [⟨388⟩]⟩ : AnnotationRecord)])])]
        [("P00734", [("data", [(⟨"Hirudin variant-1", [⟨388⟩]⟩ : InteractionRecord)])])]
        [("P00734", [("data", [(⟨"TYS", [⟨388⟩]⟩ : LigandRecord)])])] =
      run_notebook
        [("P00734", [("data", [(⟨"cansar", [⟨388⟩]⟩ : AnnotationRecord)])])]
        [("P00734", [("data", [(⟨"Hirudin variant-1", [⟨388⟩]⟩ : InteractionRecord)])])]
        [("P00734", [("data", [(⟨"TYS", [⟨388⟩]⟩ : LigandRecord)])])] :=
  claim_C8 _ _ _ _ _ _ rfl rfl rfl

/-- C9: the Step 6 and Step 7 loops use their candidate collection only
through membership tests, so their outputs are unchanged under any
permutation, duplication or deduplication of the candidate list that
preserves its set of elements. -/
theorem claim_C9 (intrRecords : List InteractionRecord) (partner : String)
    (ligRecords : List LigandRecord) (cand cand' : List Int)
    (h : ∀ x : Int, x ∈ cand ↔ x ∈ cand') :
    interface_residues_with_hirudin intrRecords partner cand =
      interface_residues_with_hirudin intrRecords partner cand'
    ∧ ligand_list ligRecords cand = ligand_list ligRecords cand' := by
  have hfun : (fun x : Residue => decide (x.startIndex ∈ cand)) =
      (fun x : Residue => decide (x.startIndex ∈ cand')) :=
    funext fun x => decide_eq_decide.mpr (h x.startIndex)
  constructor
  · rw [interface_residues_eq, interface_residues_eq, hfun]
  · rw [ligand_list_eq, ligand_list_eq]
    have hfun2 : (fun lig : LigandRecord =>
        lig.residues.any (fun r => decide (r.startIndex ∈ cand))) =
        (fun lig : LigandRecord =>
          lig.residues.any (fun r => decide (r.startIndex ∈ cand'))) :=
      funext fun lig => by rw [hfun]
    rw [hfun2]

/-- Witness for C9: the candidate lists `[5, 5]` and `[5]` have the same
element set, and both stages return the same output on them. -/
theorem claim_C9_witness :
    interface_residues_with_hirudin
        [(⟨"Hirudin variant-1", [⟨5⟩, ⟨6⟩]⟩ : InteractionRecord)]
        "Hirudin variant-1" [5, 5] =
      interface_residues_with_hirudin
        [(⟨"Hirudin variant-1", [⟨5⟩, ⟨6⟩]⟩ : InteractionRecord)]
        "Hirudin variant-1" [5]
    ∧ ligand_list [(⟨"TYS", [⟨5⟩]⟩ : LigandRecord)] [5, 5] =
        ligand_list [(⟨"TYS", [⟨5⟩]⟩ : LigandRecord)] [5] :=
  claim_C9 [⟨"Hirudin variant-1", [⟨5⟩, ⟨6⟩]⟩] "Hirudin variant-1"
    [⟨"TYS", [⟨5⟩]⟩] [5, 5] [5] (fun x => by simp)

/-- An interactions document keyed by the notebook's accession, used to
exercise the Step 6 cells of the two notebook copies. -/
def c10InteractionsDoc : ApiDoc InteractionRecord :=
  [("P00734", [("data", [⟨"Hirudin variant-1", [⟨388⟩]⟩])])]

/-- A ligand-sites document keyed by the notebook's accession, used to
exercise the Step 7 cells of the two notebook copies. -/
def c10LigandsDoc : ApiDoc LigandRecord :=
  [("P00734", [("data", [⟨"8K2", [⟨388⟩]⟩])])]

/-- The interpreter state that actually arises when either copy is run
top-to-bottom: the uppercase `ACCESSION` and
`all_predicted_ligand_binding_residues` are bound, while the lowercase
`accession` and `all_ligand_binding_residues` are unbound. -/
def c10UnboundState : NotebookState :=
  ⟨c10InteractionsDoc, c10LigandsDoc, "P00734", none, [388], none, [388]⟩

/-- Counterexample to C10: on the same fetched documents and the same
previously bound variables (the very bindings the earlier cells produce),
the Step 6 and Step 7 cells of `src/example.ipynb` return values while the
corresponding cells of `src/unnamed/part_000` raise `NameError` for the
unbound name `accession` — the two copies are not observationally
equivalent. -/
theorem claim_C10_counterexample :
    step6ExampleCell c10UnboundState = Except.ok [388]
    ∧ step6Part000Cell c10UnboundState =
        Except.error (PyError.nameError "accession")
    ∧ step6ExampleCell c10UnboundState ≠ step6Part000Cell c10UnboundState
    ∧ step7ExampleCell c10UnboundState = Except.ok ["8K2"]
    ∧ step7Part000Cell c10UnboundState =
        Except.error (PyError.nameError "accession")
    ∧ step7ExampleCell c10UnboundState ≠ step7Part000Cell c10UnboundState := by
  have h1 : step6ExampleCell c10UnboundState = Except.ok [388] := rfl
  have h2 : step6Part000Cell c10UnboundState =
      Except.error (PyError.nameError "accession") := rfl
  have h3 : step7ExampleCell c10UnboundState = Except.ok ["8K2"] := rfl
  have h4 : step7Part000Cell c10UnboundState =
      Except.error (PyError.nameError "accession") := rfl
  refine ⟨h1, h2, ?_, h3, h4, ?_⟩
  · rw [h1, h2]; exact fun hcontra => Except.noConfusion hcontra
  · rw [h3, h4]; exact fun hcontra => Except.noConfusion hcontra

/-- C10 amended: the Step 6 and Step 7 cells of the two copies compute the
same values on exactly those states in which part_000's free names are
bound compatibly — `accession` bound to the same string as `ACCESSION`
and `all_ligand_binding_residues` bound to the same list as
`all_predicted_ligand_binding_residues`; on the state the earlier cells
actually produce (both names unbound) the part_000 cells instead raise
`NameError`. -/
theorem claim_C10_amended (st : NotebookState)
    (h1 : st.accession = some st.ACCESSION)
    (h2 : st.all_ligand_binding_residues =
      some st.all_predicted_ligand_binding_residues) :
    step6Part000Cell st = step6ExampleCell st
    ∧ step7Part000Cell st = step7ExampleCell st := by
  have hres : resolveName "accession" st.accession = .ok st.ACCESSION := by
    rw [h1]; rfl
  constructor
  · cases hp : pyLookup st.interactions_data st.ACCESSION with
    | error e => simp [step6Part000Cell, step6ExampleCell, hres, hp]
    | ok inner =>
        cases hd : pyLookup inner "data" with
        | error e => simp [step6Part000Cell, step6ExampleCell, hres, hp, hd]
        | ok data =>
            simp [step6Part000Cell, step6ExampleCell, hres, hp, hd, h2,
              interfaceLoopPart000_some]
  · simp [step7Part000Cell, step7ExampleCell, hres]

/-- Witness for C10's amended claim: with `accession` bound to `"P00734"`
and `all_ligand_binding_residues` bound to the Step 4 list, the two
copies' cells agree. -/
theorem claim_C10_witness :
    step6Part000Cell
        ⟨c10InteractionsDoc, c10LigandsDoc, "P00734", some "P00734",
         [388], some [388], [388]⟩ =
      step6ExampleCell
        ⟨c10InteractionsDoc, c10LigandsDoc, "P00734", some "P00734",
         [388], some [388], [388]⟩
    ∧ step7Part000Cell
        ⟨c10InteractionsDoc, c10LigandsDoc, "P00734", some "P00734",
         [388], some [388], [388]⟩ =
      step7ExampleCell
        ⟨c10InteractionsDoc, c10LigandsDoc, "P00734", some "P00734",
         [388], some [388], [388]⟩ :=
  claim_C10_amended
    ⟨c10InteractionsDoc, c10LigandsDoc, "P00734", some "P00734",
     [388], some [388], [388]⟩ rfl rfl

end PdbeExample
